import Mathlib

/-!
# Verification of `vue-animate-height` (`packages/vue-animate-height/src/animate-height.ts`)

Shallow embedding of the `AnimateHeight` component.  The component's `setup`
closure is modelled as a record (`Comp`) holding every mutable `let` binding of
the source together with the two reactive refs (`state`, `prevState`), the
pending scheduled callbacks (animation frame, the two completion timeouts) and
the content element's `display` style.  Lifecycle callbacks (`onMounted`,
`onUpdated`, the timer/frame callbacks, `onBeforeUnmount`) become pure step
functions over that record, each returning the new record and the list of
emitted events.
-/

set_option autoImplicit false

namespace VueAnimateHeight

/-- A raw JavaScript value that can be supplied for the `collapsedHeight`
prop (`string | number`).  Numbers are modelled as integers; the component
only ever compares, clamps and stores them. -/
inductive RawValue where
  | num (n : Int)
  | str (s : String)
deriving DecidableEq

/-- `true` when every character of the list is a decimal digit. -/
def digitsOnly : List Char → Bool
  | [] => true
  | c :: cs => c.isDigit && digitsOnly cs

/-- A non-empty all-digit string, i.e. a string JavaScript coerces to a
(non-negative) number. -/
def isNumericString (s : String) : Bool :=
  !s.data.isEmpty && digitsOnly s.data

/-- Numeric value of an all-digit string (JavaScript `Number(s)`). -/
def numericValue (s : String) : Int :=
  s.data.foldl (fun a c => a * 10 + ((c.toNat : Int) - 48)) 0

/-- Modelled from the spec: `isNumber` from `~/utils/validation.js` (the file
is not part of the sources).  Per the spec's data model a height is numeric
when it is a number, and the source's comments ("If value is string \"0\" make
sure we convert it to number 0") show numeric strings also qualify. -/
def isNumber : RawValue → Bool
  | .num _ => true
  | .str s => isNumericString s

/-- Modelled from the spec: `isPercentage` from `~/utils/validation.js` (the
file is not part of the sources).  A percentage string (e.g. "15%") is a
numeric string followed by a single trailing percent sign. -/
def isPercentage : RawValue → Bool
  | .num _ => false
  | .str s =>
    match s.data.reverse with
    | [] => false
    | c :: rest => c = '%' && !rest.isEmpty && digitsOnly rest.reverse

/-- JavaScript `Number(value)` for the raw values `parseHeight` feeds into
`Math.max` (numbers and numeric strings). -/
def toNumber : RawValue → Int
  | .num n => n
  | .str s => numericValue s

/-- A logical height: `'auto' | number | `${number}%`` (the component's
`Height` type alias). -/
inductive Height where
  | auto
  | num (n : Int)
  | pct (s : String)
deriving DecidableEq

/-- The `collapsedHeight` prop validator: accepts a non-negative number, a
percentage string, or the string `"auto"`; anything else logs an error and is
rejected (returns `false`). -/
def collapsedHeightValidator (value : RawValue) : Bool :=
  (match value with
    | .num n => decide (0 ≤ n)
    | .str _ => false)
  || isPercentage value
  || decide (value = RawValue.str "auto")

/-- `parseHeight` from `setup`: numeric values are clamped to `max 0` (with
overflow forced to `"hidden"`), the percentage literal `"0%"` is normalised to
the number `0`, other percentage strings are kept verbatim (overflow
`"hidden"`), and everything else becomes `'auto'` leaving overflow untouched.
Returns the parsed height together with the new value of the setup-level
`overflow` variable. -/
def parseHeight (value : RawValue) (overflow : String) : Height × String :=
  if isNumber value then
    (Height.num (max 0 (toNumber value)), "hidden")
  else if isPercentage value then
    ((if value = RawValue.str "0%" then Height.num 0
      else match value with
        | .str s => Height.pct s
        | .num n => Height.num n), "hidden")
  else
    (Height.auto, overflow)

/-- Lexicographic (code-unit) comparison of character lists, as JavaScript
compares two strings with `<`. -/
def charListLt : List Char → List Char → Bool
  | [], [] => false
  | [], _ :: _ => true
  | _ :: _, [] => false
  | a :: as, b :: bs => if a < b then true else if b < a then false else charListLt as bs

/-- JavaScript's abstract relational comparison `a < b` restricted to the
values of the `Height` type: two numbers compare numerically; a number against
`'auto'` or a percentage string is `false` (the string coerces to `NaN`); two
strings compare lexicographically. -/
def jsLt (a b : Height) : Bool :=
  match a, b with
  | .num x, .num y => decide (x < y)
  | .num _, _ => false
  | _, .num _ => false
  | .auto, .auto => charListLt "auto".data "auto".data
  | .auto, .pct s => charListLt "auto".data s.data
  | .pct s, .auto => charListLt s.data "auto".data
  | .pct s, .pct t => charListLt s.data t.data

/-- JavaScript `a > b` on `Height` values (`b < a` with the same algorithm). -/
def jsGt (a b : Height) : Bool := jsLt b a

/-- The configured class-name table (`ANIMATION_STATE_CLASSES` shape): one
class-name string per semantic state. -/
structure AnimationStateClassNames where
  animating : String
  animatingUp : String
  animatingDown : String
  animatingToHeightZero : String
  animatingToHeightAuto : String
  animatingToHeightSpecific : String
  static : String
  staticHeightZero : String
  staticHeightAuto : String
  staticHeightSpecific : String
deriving DecidableEq

/-- The default class-name table `ANIMATION_STATE_CLASSES`. -/
def ANIMATION_STATE_CLASSES : AnimationStateClassNames :=
  { animating := "vah-animating"
    animatingUp := "vah-animating--up"
    animatingDown := "vah-animating--down"
    animatingToHeightZero := "vah-animating--to-height-zero"
    animatingToHeightAuto := "vah-animating--to-height-auto"
    animatingToHeightSpecific := "vah-animating--to-height-specific"
    static := "vah-static"
    staticHeightZero := "vah-static--height-zero"
    staticHeightAuto := "vah-static--height-auto"
    staticHeightSpecific := "vah-static--height-specific" }

/-- Modelled from the spec: the `AnimationStateClasses` prop type from
`~/types.js` (the file is not part of the sources) — a per-key partial
override of the default class-name table ("user-overridable per-key,
defaults provided"). -/
structure AnimationStateClassesProp where
  animating : Option String := none
  animatingUp : Option String := none
  animatingDown : Option String := none
  animatingToHeightZero : Option String := none
  animatingToHeightAuto : Option String := none
  animatingToHeightSpecific : Option String := none
  static : Option String := none
  staticHeightZero : Option String := none
  staticHeightAuto : Option String := none
  staticHeightSpecific : Option String := none
deriving DecidableEq

/-- The spread-merge `{ ...ANIMATION_STATE_CLASSES, ...props.animationStateClasses }`:
each user-provided key overrides the default, key-wise. -/
def mergeAnimationStateClasses (user : AnimationStateClassesProp) : AnimationStateClassNames :=
  { animating := user.animating.getD ANIMATION_STATE_CLASSES.animating
    animatingUp := user.animatingUp.getD ANIMATION_STATE_CLASSES.animatingUp
    animatingDown := user.animatingDown.getD ANIMATION_STATE_CLASSES.animatingDown
    animatingToHeightZero :=
      user.animatingToHeightZero.getD ANIMATION_STATE_CLASSES.animatingToHeightZero
    animatingToHeightAuto :=
      user.animatingToHeightAuto.getD ANIMATION_STATE_CLASSES.animatingToHeightAuto
    animatingToHeightSpecific :=
      user.animatingToHeightSpecific.getD ANIMATION_STATE_CLASSES.animatingToHeightSpecific
    static := user.static.getD ANIMATION_STATE_CLASSES.static
    staticHeightZero := user.staticHeightZero.getD ANIMATION_STATE_CLASSES.staticHeightZero
    staticHeightAuto := user.staticHeightAuto.getD ANIMATION_STATE_CLASSES.staticHeightAuto
    staticHeightSpecific :=
      user.staticHeightSpecific.getD ANIMATION_STATE_CLASSES.staticHeightSpecific }

/-- `getStaticStateClasses`: the class set (class name ↦ enabled flag) for a
settled height — `static` always on, `staticHeightZero` iff the height is the
number `0`, `staticHeightSpecific` iff it is a positive number,
`staticHeightAuto` iff it is `'auto'`. -/
def getStaticStateClasses (acl : AnimationStateClassNames) (h : Height) : List (String × Bool) :=
  [(acl.static, true),
   (acl.staticHeightZero, decide (h = Height.num 0)),
   (acl.staticHeightSpecific,
     match h with
     | .num n => decide (0 < n)
     | _ => false),
   (acl.staticHeightAuto, decide (h = Height.auto))]

/-- The animating class set computed in `onUpdated` (`updatedAnimationStateClasses`):
`animatingUp` when the previous height was `'auto'` or the new one is smaller,
`animatingDown` when the new height is `'auto'` or greater, plus the
target-shape markers on `timeoutState.height`.  (`prevHeight !== undefined` is
always true in this model: the variable is initialised at setup.) -/
def animatingClassList (acl : AnimationStateClassNames)
    (heightVar prevHeight tsHeight : Height) : List (String × Bool) :=
  [(acl.animating, true),
   (acl.animatingUp, decide (prevHeight = Height.auto) || jsLt heightVar prevHeight),
   (acl.animatingDown, decide (heightVar = Height.auto) || jsGt heightVar prevHeight),
   (acl.animatingToHeightZero, decide (tsHeight = Height.num 0)),
   (acl.animatingToHeightAuto, decide (tsHeight = Height.auto)),
   (acl.animatingToHeightSpecific, jsGt tsHeight (Height.num 0))]

/-- The reactive `State` record (`useState`): class set, height, overflow
(`none` models the JavaScript `null`) and the transition flag. -/
structure CompState where
  animationStateClasses : List (String × Bool)
  height : Height
  overflow : Option String
  shouldUseTransitions : Bool
deriving DecidableEq

/-- Events emitted by the component (`emits`).  The payload is the resolved
height (`{ newHeight }`). -/
inductive Event where
  | animationStart (newHeight : Height)
  | animationEnd (newHeight : Height)
deriving DecidableEq

/-- The scheduled animation-frame callback of the animating-from-`'auto'`
branch (`startAnimationHelper`), with the `timeoutState` fields it will merge
into the reactive state when it fires. -/
structure PendingFrame where
  id : Nat
  tsHeight : Height
  tsOverflow : Option String
deriving DecidableEq

/-- The completion timeout of the ordinary branch (`timeoutId`), carrying the
`timeoutState` fields, the static class set computed at scheduling time, the
emitted `newHeight` and the value of the setup-level `height` variable used by
its `height !== 'auto'` guard. -/
structure PendingTimeout where
  id : Nat
  totalDuration : Nat
  tsHeight : Height
  tsOverflow : Option String
  staticClasses : List (String × Bool)
  newHeight : Height
  heightVar : Height
deriving DecidableEq

/-- The completion timeout of the animating-from-`'auto'` branch
(`animationClassesTimeoutId`). -/
structure PendingClassesTimeout where
  id : Nat
  totalDuration : Nat
  tsHeight : Height
  staticClasses : List (String × Bool)
deriving DecidableEq

/-- The whole `setup` closure of one component instance: every mutable
binding, the two reactive state refs, the pending scheduled callbacks and the
content element's `display` style.  `nextId` is a fresh-handle counter for
scheduled callbacks. -/
structure Comp where
  collapsedHeight : Height
  heightVar : Height
  overflowVar : String
  prefersReducedMotion : Bool
  classNames : AnimationStateClassNames
  prevHeightProp : Height
  prevIsExpanded : Bool
  state : CompState
  prevState : CompState
  pendingFrame : Option PendingFrame
  pendingTimeout : Option PendingTimeout
  pendingClassesTimeout : Option PendingClassesTimeout
  display : String
  contentAttached : Bool
  nextId : Nat
deriving DecidableEq

/-- Arguments fixed at component creation: the `collapsedHeight` and
`isExpanded` props at setup time, the reduced-motion media query result, the
class-name overrides and whether the content element ref is attached. -/
structure InitArgs where
  collapsedHeight : RawValue
  isExpanded : Bool
  prefersReducedMotion : Bool
  classesProp : AnimationStateClassesProp
  contentAttached : Bool
deriving DecidableEq

/-- `setup` followed by `onMounted`: parse the collapsed height (initial
overflow `'visible'` unless `parseHeight` set `'hidden'`), build the initial
static state and copy it to `prevState`, initialise `prevHeightProp` and
`prevIsExpanded`, and hide the content (`display: none`) when the collapsed
height is the number `0` and the content element is attached. -/
def initComp (a : InitArgs) : Comp :=
  let p := parseHeight a.collapsedHeight "visible"
  let acl := mergeAnimationStateClasses a.classesProp
  let st : CompState :=
    { animationStateClasses := getStaticStateClasses acl p.1
      height := p.1
      overflow := some p.2
      shouldUseTransitions := false }
  { collapsedHeight := p.1
    heightVar := p.1
    overflowVar := p.2
    prefersReducedMotion := a.prefersReducedMotion
    classNames := acl
    prevHeightProp := p.1
    prevIsExpanded := a.isExpanded
    state := st
    prevState := st
    pendingFrame := none
    pendingTimeout := none
    pendingClassesTimeout := none
    display := if a.contentAttached ∧ p.1 = Height.num 0 then "none" else ""
    contentAttached := a.contentAttached
    nextId := 0 }

/-- The per-update inputs of `onUpdated`: the current `delay`, `duration` and
`isExpanded` props and the measured `offsetHeight` of the content element. -/
structure UpdateInput where
  delay : Nat
  duration : Nat
  isExpanded : Bool
  contentHeight : Int
deriving DecidableEq

/-- The `newHeight` / `timeoutState.height` / `timeoutState.overflow` triple
computed by the `isNumber / isPercentage / else` chain of `onUpdated`:
numbers are clamped to `max 0`, the percentage literal `"0%"` is normalised to
the number `0`, and anything else (i.e. `'auto'`) targets the measured content
height with final height `'auto'` and overflow `null`. -/
def computeNewHeights (heightVar : Height) (contentHeight : Int) :
    Height × Height × Option String :=
  match heightVar with
  | .num n => (Height.num (max 0 n), Height.num (max 0 n), some "hidden")
  | .pct s =>
    ((if s = "0%" then Height.num 0 else Height.pct s),
     (if s = "0%" then Height.num 0 else Height.pct s), some "hidden")
  | .auto => (Height.num contentHeight, Height.auto, none)

/-- The body of `onUpdated` after its guard has passed: update
`prevHeightProp`, un-hide the content when the previous state height equals
the collapsed height (`showContent`), compute `totalDuration`, the target
heights and the animating class set, push the new reactive state, clear both
completion timeouts and then either (animating from `'auto'`) replace the
pending animation frame and schedule the classes timeout, or (ordinary case)
emit `animationStart` and schedule the completion timeout. -/
def stepUpdateActive (c : Comp) (u : UpdateInput) : Comp × List Event :=
  let prevHeight := c.prevHeightProp
  let display1 := if c.prevState.height = c.collapsedHeight then "" else c.display
  let totalDuration := u.duration + u.delay
  let nh := computeNewHeights c.heightVar u.contentHeight
  if prevHeight = Height.auto then
    let tsHeight := nh.1
    let tsOverflow := nh.2.2
    let newHeight := Height.num u.contentHeight
    let newState : CompState :=
      { animationStateClasses := animatingClassList c.classNames c.heightVar prevHeight tsHeight
        height := newHeight
        overflow := some "hidden"
        shouldUseTransitions := false }
    ({ c with
        prevHeightProp := c.heightVar
        prevState := c.state
        state := newState
        display := display1
        pendingTimeout := none
        pendingFrame := some { id := c.nextId, tsHeight := tsHeight, tsOverflow := tsOverflow }
        pendingClassesTimeout := some
          { id := c.nextId + 1
            totalDuration := totalDuration
            tsHeight := tsHeight
            staticClasses := getStaticStateClasses c.classNames tsHeight }
        nextId := c.nextId + 2 }, [])
  else
    let tsHeight := nh.2.1
    let tsOverflow := nh.2.2
    let newHeight := nh.1
    let newState : CompState :=
      { animationStateClasses := animatingClassList c.classNames c.heightVar prevHeight tsHeight
        height := newHeight
        overflow := some "hidden"
        shouldUseTransitions := true }
    ({ c with
        prevHeightProp := c.heightVar
        prevState := c.state
        state := newState
        display := display1
        pendingClassesTimeout := none
        pendingTimeout := some
          { id := c.nextId
            totalDuration := totalDuration
            tsHeight := tsHeight
            tsOverflow := tsOverflow
            staticClasses := getStaticStateClasses c.classNames tsHeight
            newHeight := newHeight
            heightVar := c.heightVar }
        nextId := c.nextId + 1 }, [Event.animationStart newHeight])

/-- `onUpdated`: a no-op when the content element is not attached or
`isExpanded` equals the stored `prevIsExpanded`; otherwise run the animation
sequencer. -/
def stepUpdate (c : Comp) (u : UpdateInput) : Comp × List Event :=
  if c.contentAttached = false ∨ c.prevIsExpanded = u.isExpanded then (c, [])
  else stepUpdateActive c u

/-- The animation-frame callback firing (animating-from-`'auto'` branch):
merge the stored `timeoutState` into the reactive state (enabling
transitions) and emit `animationStart` with `timeoutState.height`. -/
def fireFrame (c : Comp) : Comp × List Event :=
  match c.pendingFrame with
  | none => (c, [])
  | some p =>
    let newState : CompState :=
      { animationStateClasses := c.state.animationStateClasses
        height := p.tsHeight
        overflow := p.tsOverflow
        shouldUseTransitions := true }
    ({ c with pendingFrame := none, prevState := c.state, state := newState },
     [Event.animationStart p.tsHeight])

/-- The ordinary-branch completion timeout firing: merge the full
`timeoutState` (static classes, final height and overflow, transitions off)
into the reactive state, hide the content when the final height is the number
`0` (guarded by `height !== 'auto'` on the setup-level `height` variable) and
emit `animationEnd` with the final height. -/
def fireTimeout (c : Comp) : Comp × List Event :=
  match c.pendingTimeout with
  | none => (c, [])
  | some p =>
    let newState : CompState :=
      { animationStateClasses := p.staticClasses
        height := p.tsHeight
        overflow := p.tsOverflow
        shouldUseTransitions := false }
    let display1 :=
      if p.heightVar ≠ Height.auto then
        if p.newHeight = Height.num 0 then "none" else c.display
      else c.display
    ({ c with
        pendingTimeout := none
        prevState := c.state
        state := newState
        display := display1 },
     [Event.animationEnd p.newHeight])

/-- The animating-from-`'auto'` completion timeout firing: swap the current
state's class set to the stored static classes, disable transitions, hide the
content when `timeoutState.height` is the number `0` and emit `animationEnd`
with `timeoutState.height`. -/
def fireClassesTimeout (c : Comp) : Comp × List Event :=
  match c.pendingClassesTimeout with
  | none => (c, [])
  | some p =>
    let newState : CompState :=
      { animationStateClasses := p.staticClasses
        height := c.state.height
        overflow := c.state.overflow
        shouldUseTransitions := false }
    let display1 := if p.tsHeight = Height.num 0 then "none" else c.display
    ({ c with
        pendingClassesTimeout := none
        prevState := c.state
        state := newState
        display := display1 },
     [Event.animationEnd p.tsHeight])

/-- `onBeforeUnmount`: cancel the pending animation frames and clear both
pending timeouts. -/
def stepUnmount (c : Comp) : Comp :=
  { c with pendingFrame := none, pendingTimeout := none, pendingClassesTimeout := none }

/-- One interleaving event hitting the component. -/
inductive Input where
  | update (u : UpdateInput)
  | frame
  | timeout
  | classesTimeout
  | unmount
deriving DecidableEq

/-- Dispatch one input to the corresponding lifecycle/callback step. -/
def step (c : Comp) : Input → Comp × List Event
  | .update u => stepUpdate c u
  | .frame => fireFrame c
  | .timeout => fireTimeout c
  | .classesTimeout => fireClassesTimeout c
  | .unmount => (stepUnmount c, [])

/-- Run a sequence of inputs, concatenating the emitted events. -/
def run (c : Comp) : List Input → Comp × List Event
  | [] => (c, [])
  | i :: is =>
    let r := step c i
    let r2 := run r.1 is
    (r2.1, r.2 ++ r2.2)

/-- States of the component that can actually occur: an initial state, or any
state produced from a reachable one by a step. -/
inductive Reachable : Comp → Prop
  | base (a : InitArgs) : Reachable (initComp a)
  | next {c : Comp} (hc : Reachable c) (i : Input) : Reachable (step c i).1

/-- The handles of all pending scheduled callbacks. -/
def pendingIds (c : Comp) : List Nat :=
  (c.pendingFrame.map PendingFrame.id).toList ++
    (c.pendingTimeout.map PendingTimeout.id).toList ++
      (c.pendingClassesTimeout.map PendingClassesTimeout.id).toList

/-- `getTimings`: both timings collapse to `0` under the reduced-motion
preference, otherwise the raw `delay`/`duration` props are returned. -/
def getTimings (prefersReducedMotion : Bool) (delay duration : Nat) : Nat × Nat :=
  if prefersReducedMotion then (0, 0) else (delay, duration)

/-- The inline `height` style string rendered for a logical height. -/
def heightStyle : Height → String
  | .num n => toString n ++ "px"
  | .auto => "auto"
  | .pct s => s

/-- The inline CSS transition string generated by the render function:
present only when the state's transition flag and `applyInlineTransitions`
are both set, and built from `getTimings` (so reduced motion zeroes it). -/
def transitionStyle (c : Comp) (delay duration : Nat) (easing : String)
    (applyInlineTransitions : Bool) : Option String :=
  if c.state.shouldUseTransitions ∧ applyInlineTransitions then
    let t := getTimings c.prefersReducedMotion delay duration
    some ("height " ++ toString t.2 ++ "ms " ++ easing ++ " " ++ toString t.1 ++ "ms")
  else none

/-- Structural invariant of reachable component states: the setup-level
`height` variable is never reassigned (so `prevHeightProp` always equals it
and it always equals the parsed collapsed height), an animation frame can
only be pending when that height is `'auto'`, every pending handle is below
the fresh-handle counter, and pending completion payloads are consistent with
what the sequencer stored when it scheduled them. -/
def Inv (c : Comp) : Prop :=
  c.prevHeightProp = c.heightVar ∧
  c.heightVar = c.collapsedHeight ∧
  (∀ p, c.pendingFrame = some p → c.heightVar = Height.auto ∧ p.id < c.nextId) ∧
  (∀ p, c.pendingTimeout = some p →
    p.id < c.nextId ∧
    p.staticClasses = getStaticStateClasses c.classNames p.tsHeight ∧
    p.newHeight = p.tsHeight ∧ p.heightVar ≠ Height.auto) ∧
  (∀ p, c.pendingClassesTimeout = some p →
    p.id < c.nextId ∧
    p.staticClasses = getStaticStateClasses c.classNames p.tsHeight)

/-- A `collapsedHeight` value that is invalid in the sense of the spec's
error policy: a negative number, or a string that is neither numeric nor a
percentage nor `"auto"`. -/
def InvalidCollapsedHeight (v : RawValue) : Prop :=
  (∃ n : Int, v = RawValue.num n ∧ n < 0) ∨
  (∃ s : String, v = RawValue.str s ∧ isNumericString s = false ∧
    isPercentage (RawValue.str s) = false ∧ s ≠ "auto")

/-- Concrete scenario: mounted with `collapsedHeight = 0`, `isExpanded =
false`, no reduced motion, default class names, content attached. -/
def compZero : Comp := initComp ⟨RawValue.num 0, false, false, {}, true⟩

/-- Concrete scenario: like `compZero` but with the reduced-motion
preference detected. -/
def compZeroRM : Comp := initComp ⟨RawValue.num 0, false, true, {}, true⟩

/-- Concrete scenario: mounted with `collapsedHeight = "auto"`. -/
def compAuto : Comp := initComp ⟨RawValue.str "auto", false, false, {}, true⟩

/-- Concrete scenario: mounted with `collapsedHeight = 5`. -/
def compFive : Comp := initComp ⟨RawValue.num 5, false, false, {}, true⟩

/-- Concrete update: a re-render with `isExpanded = true`, `duration = 250`,
`delay = 0` and measured content height `120`. -/
def toggleOn : UpdateInput := ⟨0, 250, true, 120⟩

/-- Concrete update: like `toggleOn` but with `delay = 10`. -/
def toggleOnDelayed : UpdateInput := ⟨10, 250, true, 120⟩

/-- Concrete update: a re-render with `isExpanded` still `false` (e.g. some
unrelated prop changed). -/
def noToggle : UpdateInput := ⟨0, 250, false, 120⟩

theorem inv_initComp (a : InitArgs) : Inv (initComp a) := by
  unfold Inv initComp
  simp

theorem inv_stepUpdateActive (c : Comp) (u : UpdateInput) (h : Inv c) :
    Inv (stepUpdateActive c u).1 := by
  obtain ⟨h1, h2, h3, h4, h5⟩ := h
  unfold stepUpdateActive
  by_cases hAuto : c.prevHeightProp = Height.auto
  · simp only [hAuto, if_true, if_pos]
    refine ⟨rfl, h2, ?_, ?_, ?_⟩
    · intro q hq
      injection hq with hq
      subst hq
      exact ⟨h1.symm.trans hAuto, show c.nextId < c.nextId + 2 by omega⟩
    · intro q hq
      exact absurd hq (by simp)
    · intro q hq
      injection hq with hq
      subst hq
      exact ⟨show c.nextId + 1 < c.nextId + 2 by omega, rfl⟩
  · simp only [hAuto, if_false, if_neg]
    refine ⟨rfl, h2, ?_, ?_, ?_⟩
    · intro q hq
      obtain ⟨ha, hid⟩ := h3 q hq
      exact ⟨ha, show q.id < c.nextId + 1 by omega⟩
    · intro q hq
      injection hq with hq
      subst hq
      have hva : c.heightVar ≠ Height.auto := fun hx => hAuto (h1.trans hx)
      refine ⟨show c.nextId < c.nextId + 1 by omega, rfl, ?_, hva⟩
      rcases hv : c.heightVar with _ | n | s
      · exact absurd hv hva
      · simp [computeNewHeights, hv]
      · simp [computeNewHeights, hv]
    · intro q hq
      exact absurd hq (by simp)

theorem inv_stepUpdate (c : Comp) (u : UpdateInput) (h : Inv c) :
    Inv (stepUpdate c u).1 := by
  unfold stepUpdate
  by_cases hg : c.contentAttached = false ∨ c.prevIsExpanded = u.isExpanded
  · simpa [hg] using h
  · simpa [hg] using inv_stepUpdateActive c u h

theorem inv_fireFrame (c : Comp) (h : Inv c) : Inv (fireFrame c).1 := by
  obtain ⟨h1, h2, h3, h4, h5⟩ := h
  unfold fireFrame
  cases hf : c.pendingFrame with
  | none => exact ⟨h1, h2, h3, h4, h5⟩
  | some p =>
    exact ⟨h1, h2, fun q hq => Option.noConfusion hq, h4, h5⟩

theorem inv_fireTimeout (c : Comp) (h : Inv c) : Inv (fireTimeout c).1 := by
  obtain ⟨h1, h2, h3, h4, h5⟩ := h
  unfold fireTimeout
  cases hf : c.pendingTimeout with
  | none => exact ⟨h1, h2, h3, h4, h5⟩
  | some p =>
    exact ⟨h1, h2, h3, fun q hq => Option.noConfusion hq, h5⟩

theorem inv_fireClassesTimeout (c : Comp) (h : Inv c) : Inv (fireClassesTimeout c).1 := by
  obtain ⟨h1, h2, h3, h4, h5⟩ := h
  unfold fireClassesTimeout
  cases hf : c.pendingClassesTimeout with
  | none => exact ⟨h1, h2, h3, h4, h5⟩
  | some p =>
    exact ⟨h1, h2, h3, h4, fun q hq => Option.noConfusion hq⟩

theorem inv_stepUnmount (c : Comp) (h : Inv c) : Inv (stepUnmount c) := by
  obtain ⟨h1, h2, h3, h4, h5⟩ := h
  exact ⟨h1, h2, fun q hq => Option.noConfusion hq, fun q hq => Option.noConfusion hq,
    fun q hq => Option.noConfusion hq⟩

theorem reachable_inv {c : Comp} (h : Reachable c) : Inv c := by
  induction h with
  | base a => exact inv_initComp a
  | next hc i ih =>
    cases i with
    | update u => exact inv_stepUpdate _ u ih
    | frame => exact inv_fireFrame _ ih
    | timeout => exact inv_fireTimeout _ ih
    | classesTimeout => exact inv_fireClassesTimeout _ ih
    | unmount => exact inv_stepUnmount _ ih

/-- The overflow value produced by `parseHeight` is `"hidden"` exactly when
the value is numeric or a percentage; otherwise the previous overflow is
kept. -/
theorem parseHeight_overflow (v : RawValue) (ov : String) :
    (parseHeight v ov).2 = if isNumber v || isPercentage v then "hidden" else ov := by
  unfold parseHeight
  by_cases h1 : isNumber v = true
  · simp [h1]
  · by_cases h2 : isPercentage v = true
    · simp [h1, h2]
    · simp [h1, h2]

/-- The height produced by `parseHeight` is `'auto'` exactly when the value
is neither numeric nor a percentage. -/
theorem parseHeight_auto_iff (v : RawValue) (ov : String) :
    (parseHeight v ov).1 = Height.auto ↔ (isNumber v = false ∧ isPercentage v = false) := by
  unfold parseHeight
  by_cases h1 : isNumber v = true
  · simp [h1]
  · by_cases h2 : isPercentage v = true
    · simp only [h1, h2]
      simp only [Bool.false_eq_true, if_false, if_true]
      constructor
      · intro h
        split at h
        · exact absurd h (by simp)
        · split at h <;> simp_all
      · intro h
        simp [h2] at h
    · simp [h1, h2]

/-- C1 (code_bug evidence): toggling `isExpanded` false→true with
`collapsedHeight = 0` and measured content height `120` emits
`animationStart` with `newHeight = 0` — not the measured content height
`120` the claim expects — with the `to-height-zero` marker instead of the
`down`/`to-height-specific` markers, and the completion timer then emits
`animationEnd` with `newHeight = 0`.  The setup-level `height` variable is
never re-derived from `isExpanded`, so the target never becomes `'auto'`
and the animate-to-content-height branch is never taken on expansion. -/
theorem c1_toggle_animates_to_collapsed_height_not_content_height :
    (stepUpdate compZero toggleOn).2 = [Event.animationStart (Height.num 0)] ∧
    (stepUpdate compZero toggleOn).2 ≠ [Event.animationStart (Height.num 120)] ∧
    (stepUpdate compZero toggleOn).1.state.animationStateClasses =
      [("vah-animating", true),
       ("vah-animating--up", false),
       ("vah-animating--down", false),
       ("vah-animating--to-height-zero", true),
       ("vah-animating--to-height-auto", false),
       ("vah-animating--to-height-specific", false)] ∧
    (fireTimeout (stepUpdate compZero toggleOn).1).2 = [Event.animationEnd (Height.num 0)] := by
  decide

/-- C2 (code_bug evidence): `prevIsExpanded` is initialised at setup and
never updated, so the `onUpdated` guard compares against the mount-time
value instead of the value before the current update.  After mounting with
`isExpanded = false` and one update with `isExpanded = true`, a second
update with the unchanged value `true` re-runs the sequencer: it emits a
fresh `animationStart` and replaces the pending completion timer (handle 0
is superseded by handle 1), where the claim requires a no-op. -/
theorem c2_unchanged_isExpanded_still_restarts_animation :
    (stepUpdate compZero toggleOn).1.prevIsExpanded = false ∧
    (stepUpdate (stepUpdate compZero toggleOn).1 toggleOn).2 =
      [Event.animationStart (Height.num 0)] ∧
    (stepUpdate (stepUpdate compZero toggleOn).1 toggleOn).2 ≠ [] ∧
    (stepUpdate compZero toggleOn).1.pendingTimeout.map PendingTimeout.id = some 0 ∧
    (stepUpdate (stepUpdate compZero toggleOn).1 toggleOn).1.pendingTimeout.map
      PendingTimeout.id = some 1 := by
  decide

/-- C4 (counterexample): with the reduced-motion preference detected and
`duration = 250`, `delay = 10`, the completion timeout is still scheduled
with `totalDuration = 260`, not `0`: `onUpdated` reads `delay`/`duration`
straight from the props and never consults `getTimings`. -/
theorem c4_counterexample_scheduling_ignores_reduced_motion :
    compZeroRM.prefersReducedMotion = true ∧
    (stepUpdate compZeroRM toggleOnDelayed).1.pendingTimeout.map PendingTimeout.totalDuration =
      some 260 ∧
    (stepUpdate compZeroRM toggleOnDelayed).1.pendingTimeout.map PendingTimeout.totalDuration ≠
      some 0 := by
  decide

/-- C4 (amended): when the reduced-motion preference is detected,
`getTimings` returns `(0, 0)` and the generated CSS transition string
therefore uses `0ms` for both duration and delay (independently of the
configured props), but the completion timer is always scheduled with the
raw `duration + delay` from the props — reduced motion does not zero the
scheduled timeout. -/
theorem c4_reduced_motion_zeroes_css_strings_but_not_timer (c : Comp) (u : UpdateInput)
    (d dur : Nat) (easing : String)
    (hprm : c.prefersReducedMotion = true)
    (hatt : c.contentAttached = true) (hg : c.prevIsExpanded ≠ u.isExpanded) :
    getTimings c.prefersReducedMotion d dur = (0, 0) ∧
    (c.state.shouldUseTransitions = true →
      transitionStyle c d dur easing true =
        some ("height " ++ toString (0 : Nat) ++ "ms " ++ easing ++ " " ++
          toString (0 : Nat) ++ "ms")) ∧
    (∀ p, (stepUpdate c u).1.pendingTimeout = some p →
      p.totalDuration = u.duration + u.delay) ∧
    (∀ p, (stepUpdate c u).1.pendingClassesTimeout = some p →
      p.totalDuration = u.duration + u.delay) := by
  have hguard : ¬ (c.contentAttached = false ∨ c.prevIsExpanded = u.isExpanded) := by
    simp [hatt, hg]
  refine ⟨by simp [getTimings, hprm], ?_, ?_, ?_⟩
  · intro hsut
    simp [transitionStyle, getTimings, hprm, hsut]
  · intro p hp
    rw [stepUpdate, if_neg hguard] at hp
    unfold stepUpdateActive at hp
    by_cases hAuto : c.prevHeightProp = Height.auto
    · simp only [hAuto, if_true, if_pos] at hp
      exact absurd hp (by simp)
    · simp only [hAuto, if_false, if_neg] at hp
      injection hp with hp
      subst hp
      rfl
  · intro p hp
    rw [stepUpdate, if_neg hguard] at hp
    unfold stepUpdateActive at hp
    by_cases hAuto : c.prevHeightProp = Height.auto
    · simp only [hAuto, if_true, if_pos] at hp
      injection hp with hp
      subst hp
      rfl
    · simp only [hAuto, if_false, if_neg] at hp
      exact absurd hp (by simp)

/-- Witness for the amended C4 theorem at a concrete reduced-motion
component and update. -/
theorem c4_reduced_motion_witness :
    getTimings compZeroRM.prefersReducedMotion 10 250 = (0, 0) ∧
    (∀ p, (stepUpdate compZeroRM toggleOnDelayed).1.pendingTimeout = some p →
      p.totalDuration = 250 + 10) :=
  ⟨(c4_reduced_motion_zeroes_css_strings_but_not_timer compZeroRM toggleOnDelayed
      10 250 "ease" rfl rfl (by decide)).1,
   (c4_reduced_motion_zeroes_css_strings_but_not_timer compZeroRM toggleOnDelayed
      10 250 "ease" rfl rfl (by decide)).2.2.1⟩

/-- C6: the percentage literal `"0%"` is normalised to the number `0` both
at initial parse (`parseHeight`) and by the `onUpdated` height computation,
so a component configured with `collapsedHeight = "0%"` has exactly the same
setup state — and hence exactly the same behaviour on every input sequence
(classes, hide/show, comparisons, events) — as one configured with the
number `0`. -/
theorem c6_zero_percent_behaves_like_zero :
    (∀ ov : String, parseHeight (RawValue.str "0%") ov = parseHeight (RawValue.num 0) ov) ∧
    (∀ (isExp prm : Bool) (cp : AnimationStateClassesProp) (att : Bool),
      initComp ⟨RawValue.str "0%", isExp, prm, cp, att⟩ =
        initComp ⟨RawValue.num 0, isExp, prm, cp, att⟩) ∧
    (∀ (isExp prm : Bool) (cp : AnimationStateClassesProp) (att : Bool)
        (inputs : List Input),
      run (initComp ⟨RawValue.str "0%", isExp, prm, cp, att⟩) inputs =
        run (initComp ⟨RawValue.num 0, isExp, prm, cp, att⟩) inputs) ∧
    (∀ ch : Int, computeNewHeights (Height.pct "0%") ch = computeNewHeights (Height.num 0) ch) := by
  refine ⟨fun _ov => rfl, fun _ _ _ _ => rfl, fun _ _ _ _ _ => rfl, fun _ch => rfl⟩

/-- C3: an invalid `collapsedHeight` (negative number, or a non-numeric,
non-percentage, non-`"auto"` string such as `"abc"`) is rejected by the prop
validator (which logs an error exactly when it returns `false`), and a
re-render in which `isExpanded` is unchanged — in particular one caused only
by a `collapsedHeight` prop change, which `onUpdated` never reads — leaves
the component state (hence the previously rendered height) untouched and
emits no `animationStart` or `animationEnd`. -/
theorem c3_invalid_collapsedHeight_rejected_and_inert (v : RawValue)
    (hv : InvalidCollapsedHeight v) (c : Comp) (u : UpdateInput)
    (hsame : c.prevIsExpanded = u.isExpanded) :
    collapsedHeightValidator v = false ∧ stepUpdate c u = (c, []) := by
  constructor
  · rcases hv with ⟨n, rfl, hn⟩ | ⟨s, rfl, hnum, hpct, hauto⟩
    · simp [collapsedHeightValidator, isPercentage]
      omega
    · simp [collapsedHeightValidator, hpct, hauto]
  · rw [stepUpdate, if_pos (Or.inr hsame)]

/-- Witness for C3 at the invalid string `"abc"` and a component mounted
with the valid height `5` receiving a re-render without an `isExpanded`
change. -/
theorem c3_witness :
    collapsedHeightValidator (RawValue.str "abc") = false ∧
    stepUpdate compFive noToggle = (compFive, []) :=
  c3_invalid_collapsedHeight_rejected_and_inert (RawValue.str "abc")
    (Or.inr ⟨"abc", rfl, by decide, by decide, by decide⟩)
    compFive noToggle rfl

/-- C5: starting a new animation cycle (a guard-passing `onUpdated`) cancels
every previously pending scheduled callback: no handle that was pending
before the update is still pending afterwards, in both the
animating-from-`'auto'` branch and the ordinary branch (in the latter a
start-tick can never be pending on a reachable state, since frames are only
scheduled when the height is `'auto'`, in which case every cycle takes the
from-`'auto'` branch). -/
theorem c5_new_cycle_cancels_pending_callbacks (c : Comp) (u : UpdateInput)
    (hr : Reachable c) (hatt : c.contentAttached = true)
    (hg : c.prevIsExpanded ≠ u.isExpanded) :
    ∀ i ∈ pendingIds c, i ∉ pendingIds (stepUpdate c u).1 := by
  obtain ⟨h1, h2, h3, h4, h5⟩ := reachable_inv hr
  have hguard : ¬ (c.contentAttached = false ∨ c.prevIsExpanded = u.isExpanded) := by
    simp [hatt, hg]
  intro i hi
  have hlt : i < c.nextId := by
    simp only [pendingIds, List.mem_append] at hi
    rcases hi with (hif | hit) | hic
    · simp at hif
      obtain ⟨p, hp, hpid⟩ := hif
      exact hpid ▸ (h3 p hp).2
    · simp at hit
      obtain ⟨p, hp, hpid⟩ := hit
      exact hpid ▸ (h4 p hp).1
    · simp at hic
      obtain ⟨p, hp, hpid⟩ := hic
      exact hpid ▸ (h5 p hp).1
  intro hmem
  rw [stepUpdate, if_neg hguard] at hmem
  unfold stepUpdateActive at hmem
  by_cases hAuto : c.prevHeightProp = Height.auto
  · simp only [hAuto, if_true, if_pos] at hmem
    simp [pendingIds] at hmem
    omega
  · have hnone : c.pendingFrame = none := by
      cases hpf : c.pendingFrame with
      | none => rfl
      | some p => exact absurd (h1.trans (h3 p hpf).1) hAuto
    simp only [hAuto, if_false, if_neg] at hmem
    simp [pendingIds, hnone] at hmem
    omega

/-- Witness for C5: after one toggle on a `collapsedHeight = 0` component
the completion timer (handle 0) is pending; a second guard-passing update
cancels it. -/
theorem c5_witness :
    (0 : Nat) ∈ pendingIds (stepUpdate compZero toggleOn).1 ∧
    (0 : Nat) ∉ pendingIds (stepUpdate (stepUpdate compZero toggleOn).1 toggleOn).1 :=
  ⟨by decide,
   c5_new_cycle_cancels_pending_callbacks (stepUpdate compZero toggleOn).1 toggleOn
     (Reachable.next (Reachable.base ⟨RawValue.num 0, false, false, {}, true⟩)
       (Input.update toggleOn))
     rfl (by decide) 0 (by decide)⟩

/-- C7: for every `collapsedHeight` accepted by the validator, the initial
reactive state's height (and hence the rendered inline height style) is
exactly the parsed value, the initial overflow is `"hidden"` iff the parsed
value is not `'auto'`, and at mount the current and previous states coincide
and both hold the collapsed height. -/
theorem c7_initial_state_matches_parsed_collapsed_height (v : RawValue)
    (_hv : collapsedHeightValidator v = true) (isExp prm : Bool)
    (cp : AnimationStateClassesProp) (att : Bool) :
    (initComp ⟨v, isExp, prm, cp, att⟩).state.height = (parseHeight v "visible").1 ∧
    heightStyle (initComp ⟨v, isExp, prm, cp, att⟩).state.height =
      heightStyle (parseHeight v "visible").1 ∧
    ((initComp ⟨v, isExp, prm, cp, att⟩).state.overflow = some "hidden" ↔
      (parseHeight v "visible").1 ≠ Height.auto) ∧
    (initComp ⟨v, isExp, prm, cp, att⟩).prevState = (initComp ⟨v, isExp, prm, cp, att⟩).state ∧
    (initComp ⟨v, isExp, prm, cp, att⟩).state.height =
      (initComp ⟨v, isExp, prm, cp, att⟩).collapsedHeight ∧
    (initComp ⟨v, isExp, prm, cp, att⟩).prevState.height =
      (initComp ⟨v, isExp, prm, cp, att⟩).collapsedHeight := by
  refine ⟨rfl, rfl, ?_, rfl, rfl, rfl⟩
  show some (parseHeight v "visible").2 = some "hidden" ↔ _
  constructor
  · intro hsome heq
    rw [parseHeight_auto_iff] at heq
    rw [parseHeight_overflow, heq.1, heq.2] at hsome
    simp at hsome
  · intro hne
    rw [parseHeight_overflow]
    by_cases h1 : (isNumber v || isPercentage v) = true
    · rw [if_pos h1]
    · simp only [Bool.or_eq_true, not_or, Bool.not_eq_true] at h1
      exact absurd ((parseHeight_auto_iff v "visible").2 ⟨h1.1, h1.2⟩) hne

/-- Witness for C7 at the valid collapsed height `5`. -/
theorem c7_witness :
    compFive.state.height = (parseHeight (RawValue.num 5) "visible").1 ∧
    heightStyle compFive.state.height = heightStyle (parseHeight (RawValue.num 5) "visible").1 ∧
    (compFive.state.overflow = some "hidden" ↔
      (parseHeight (RawValue.num 5) "visible").1 ≠ Height.auto) ∧
    compFive.prevState = compFive.state ∧
    compFive.state.height = compFive.collapsedHeight ∧
    compFive.prevState.height = compFive.collapsedHeight :=
  c7_initial_state_matches_parsed_collapsed_height (RawValue.num 5) (by decide)
    false false {} true

/-- C8: on a reachable state whose content is not already hidden, firing a
pending completion timer (either branch's) swaps the state to the static
class set matching the final height shape, disables the transition flag,
sets the content's display to `none` exactly when the final height is the
number `0`, and emits `animationEnd` carrying the final height. -/
theorem c8_completion_timer_finalises_state (c : Comp) (hr : Reachable c) :
    (∀ p, c.pendingTimeout = some p → c.display ≠ "none" →
      (fireTimeout c).2 = [Event.animationEnd p.newHeight] ∧
      (fireTimeout c).1.state.animationStateClasses =
        getStaticStateClasses c.classNames p.newHeight ∧
      (fireTimeout c).1.state.height = p.newHeight ∧
      (fireTimeout c).1.state.shouldUseTransitions = false ∧
      ((fireTimeout c).1.display = "none" ↔ p.newHeight = Height.num 0)) ∧
    (∀ p, c.pendingClassesTimeout = some p → c.display ≠ "none" →
      (fireClassesTimeout c).2 = [Event.animationEnd p.tsHeight] ∧
      (fireClassesTimeout c).1.state.animationStateClasses =
        getStaticStateClasses c.classNames p.tsHeight ∧
      (fireClassesTimeout c).1.state.shouldUseTransitions = false ∧
      ((fireClassesTimeout c).1.display = "none" ↔ p.tsHeight = Height.num 0)) := by
  obtain ⟨h1, h2, h3, h4, h5⟩ := reachable_inv hr
  constructor
  · intro p hp hd
    obtain ⟨hid, hstat, hnt, hva⟩ := h4 p hp
    unfold fireTimeout
    rw [hp]
    refine ⟨rfl, ?_, ?_, rfl, ?_⟩
    · show p.staticClasses = _
      rw [hstat, hnt]
    · show p.tsHeight = p.newHeight
      exact hnt.symm
    · show (if p.heightVar ≠ Height.auto then
          (if p.newHeight = Height.num 0 then "none" else c.display)
        else c.display) = "none" ↔ _
      rw [if_pos hva]
      constructor
      · intro hif
        by_contra hne
        rw [if_neg hne] at hif
        exact hd hif
      · intro h0
        rw [if_pos h0]
  · intro p hp hd
    have hstat := (h5 p hp).2
    unfold fireClassesTimeout
    rw [hp]
    refine ⟨rfl, ?_, rfl, ?_⟩
    · show p.staticClasses = _
      exact hstat
    · show (if p.tsHeight = Height.num 0 then "none" else c.display) = "none" ↔ _
      constructor
      · intro hif
        by_contra hne
        rw [if_neg hne] at hif
        exact hd hif
      · intro h0
        rw [if_pos h0]

/-- Witness for C8: both completion timers at concrete reachable states —
the ordinary timer after toggling a `collapsedHeight = 0` component (final
height `0`: classes swap to static `height-zero`, display becomes `none`)
and the from-`'auto'` classes timer after toggling a `collapsedHeight =
"auto"` component (final height `120`). -/
theorem c8_witness :
    ((fireTimeout (stepUpdate compZero toggleOn).1).2 =
        [Event.animationEnd (Height.num 0)] ∧
      (fireTimeout (stepUpdate compZero toggleOn).1).1.state.animationStateClasses =
        getStaticStateClasses (stepUpdate compZero toggleOn).1.classNames (Height.num 0) ∧
      (fireTimeout (stepUpdate compZero toggleOn).1).1.state.height = Height.num 0 ∧
      (fireTimeout (stepUpdate compZero toggleOn).1).1.state.shouldUseTransitions = false ∧
      ((fireTimeout (stepUpdate compZero toggleOn).1).1.display = "none" ↔
        Height.num 0 = Height.num 0)) ∧
    ((fireClassesTimeout (stepUpdate compAuto toggleOn).1).2 =
        [Event.animationEnd (Height.num 120)] ∧
      (fireClassesTimeout (stepUpdate compAuto toggleOn).1).1.state.animationStateClasses =
        getStaticStateClasses (stepUpdate compAuto toggleOn).1.classNames (Height.num 120) ∧
      (fireClassesTimeout (stepUpdate compAuto toggleOn).1).1.state.shouldUseTransitions =
        false ∧
      ((fireClassesTimeout (stepUpdate compAuto toggleOn).1).1.display = "none" ↔
        Height.num 120 = Height.num 0)) :=
  ⟨(c8_completion_timer_finalises_state (stepUpdate compZero toggleOn).1
      (Reachable.next (Reachable.base ⟨RawValue.num 0, false, false, {}, true⟩)
        (Input.update toggleOn))).1
    { id := 0, totalDuration := 250, tsHeight := Height.num 0, tsOverflow := some "hidden"
      staticClasses :=
        getStaticStateClasses (mergeAnimationStateClasses {}) (Height.num 0)
      newHeight := Height.num 0, heightVar := Height.num 0 }
    (by decide) (by decide),
   (c8_completion_timer_finalises_state (stepUpdate compAuto toggleOn).1
      (Reachable.next (Reachable.base ⟨RawValue.str "auto", false, false, {}, true⟩)
        (Input.update toggleOn))).2
    { id := 1, totalDuration := 250, tsHeight := Height.num 120
      staticClasses :=
        getStaticStateClasses (mergeAnimationStateClasses {}) (Height.num 120) }
    (by decide) (by decide)⟩

/-- C10: in a cycle started by a guard-passing `onUpdated` and run to
completion without being superseded, `animationStart` and `animationEnd`
carry the same `newHeight`: the ordinary branch emits `animationStart` with
exactly the `newHeight` stored in its completion timer, which later emits
`animationEnd` with it, and the from-`'auto'` branch's frame callback and
classes timer both carry the same stored `timeoutState.height`. -/
theorem c10_animationStart_equals_animationEnd_height (c : Comp) (u : UpdateInput)
    (hatt : c.contentAttached = true) (hg : c.prevIsExpanded ≠ u.isExpanded) :
    (∀ p, (stepUpdate c u).1.pendingTimeout = some p →
      (stepUpdate c u).2 = [Event.animationStart p.newHeight] ∧
      (fireTimeout (stepUpdate c u).1).2 = [Event.animationEnd p.newHeight]) ∧
    (∀ p q, (stepUpdate c u).1.pendingFrame = some p →
      (stepUpdate c u).1.pendingClassesTimeout = some q →
      (fireFrame (stepUpdate c u).1).2 = [Event.animationStart p.tsHeight] ∧
      (fireClassesTimeout (stepUpdate c u).1).2 = [Event.animationEnd p.tsHeight]) := by
  have hguard : ¬ (c.contentAttached = false ∨ c.prevIsExpanded = u.isExpanded) := by
    simp [hatt, hg]
  rw [stepUpdate, if_neg hguard]
  unfold stepUpdateActive
  by_cases hAuto : c.prevHeightProp = Height.auto
  · simp only [hAuto, if_true, if_pos]
    constructor
    · intro p hp
      exact absurd hp (by simp)
    · intro p q hp hq
      injection hp with hp
      injection hq with hq
      subst hp
      subst hq
      exact ⟨rfl, rfl⟩
  · simp only [hAuto, if_false, if_neg]
    constructor
    · intro p hp
      injection hp with hp
      subst hp
      exact ⟨rfl, rfl⟩
    · intro p q hp hq
      exact absurd hq (by simp)

/-- Witness for C10: both branches at concrete components — toggling
`collapsedHeight = 0` (ordinary branch, height `0` in both events) and
toggling `collapsedHeight = "auto"` (from-`'auto'` branch, measured content
height `120` in both events). -/
theorem c10_witness :
    ((stepUpdate compZero toggleOn).2 = [Event.animationStart (Height.num 0)] ∧
      (fireTimeout (stepUpdate compZero toggleOn).1).2 =
        [Event.animationEnd (Height.num 0)]) ∧
    ((fireFrame (stepUpdate compAuto toggleOn).1).2 =
        [Event.animationStart (Height.num 120)] ∧
      (fireClassesTimeout (stepUpdate compAuto toggleOn).1).2 =
        [Event.animationEnd (Height.num 120)]) :=
  ⟨(c10_animationStart_equals_animationEnd_height compZero toggleOn rfl (by decide)).1
    { id := 0, totalDuration := 250, tsHeight := Height.num 0, tsOverflow := some "hidden"
      staticClasses :=
        getStaticStateClasses (mergeAnimationStateClasses {}) (Height.num 0)
      newHeight := Height.num 0, heightVar := Height.num 0 }
    (by decide),
   (c10_animationStart_equals_animationEnd_height compAuto toggleOn rfl (by decide)).2
    { id := 0, tsHeight := Height.num 120, tsOverflow := none }
    { id := 1, totalDuration := 250, tsHeight := Height.num 120
      staticClasses :=
        getStaticStateClasses (mergeAnimationStateClasses {}) (Height.num 120) }
    (by decide) (by decide)⟩

/-- C9: `onBeforeUnmount` cancels every pending scheduled callback — the
animation-frame start tick and both completion timeouts — and on the
resulting state none of the scheduled callbacks has any effect: each fire
step returns the state unchanged and emits no event. -/
theorem c9_unmount_cancels_all_pending_work (c : Comp) :
    (stepUnmount c).pendingFrame = none ∧
    (stepUnmount c).pendingTimeout = none ∧
    (stepUnmount c).pendingClassesTimeout = none ∧
    pendingIds (stepUnmount c) = [] ∧
    fireFrame (stepUnmount c) = (stepUnmount c, []) ∧
    fireTimeout (stepUnmount c) = (stepUnmount c, []) ∧
    fireClassesTimeout (stepUnmount c) = (stepUnmount c, []) :=
  ⟨rfl, rfl, rfl, rfl, rfl, rfl, rfl⟩

end VueAnimateHeight

